import Mathlib

/-!
Shallow embedding of the loan-approval dashboard (`src/app.py`).

The application wires Streamlit form widgets to a pre-trained scikit-learn
pipeline loaded from `loan_pipeline.joblib`.  The embedded core covers:

* the decision threshold (`decision = "Approved" if prob >= 0.5 else ...`,
  app.py line 180);
* construction of the single-row input frame `input_df` (lines 163-175);
* the recommendations block guarded by
  `decision == "Not Approved" and prob < 0.5` (lines 226-232);
* the cached model loader `load_model` under `st.cache_resource`
  (lines 53-59) and the predict-button guard
  `if predict_btn and model is not None` (line 161);
* the `try/except` around scoring with the error message
  `f"Erreur lors de la prédiction : {str(e)}"` (lines 177-235).

The serialized pipeline itself is an external artifact and is not part of
the repository; it is modelled from the spec as an abstract `Pipeline`
whose `predict_proba` either raises (an `Except.error` carrying the
exception text) or returns a per-class probability vector with the
approved class at index 1.
-/

namespace LoanApproval

/-- The binary decision rendered by the app (`"Approved"` / `"Not Approved"`). -/
inductive Decision where
  | approved
  | notApproved
deriving DecidableEq, Repr

/-- app.py line 180: `decision = "Approved" if prob >= 0.5 else "Not Approved"`.
Probabilities are modelled as rationals. -/
def decision (prob : ℚ) : Decision :=
  if prob ≥ 1/2 then Decision.approved else Decision.notApproved

/-- A value stored in one cell of the pandas row: the app puts strings
(categoricals), Python ints (incomes, loan amount, term) and floats
(credit history) into the dict at lines 163-175. -/
inductive FieldValue where
  | str (s : String)
  | int (n : ℤ)
  | rat (q : ℚ)
deriving DecidableEq, Repr

/-- The raw values reaching the record-construction site: whatever the
widget variables `gender`, `married`, ... hold when the button is pressed.
The types mirror what the Streamlit widgets return. -/
structure RawInputs where
  gender : String
  married : String
  dependents : String
  education : String
  self_employed : String
  applicant_income : ℤ
  coapplicant_income : ℤ
  loan_amount : ℤ
  loan_amount_term : ℤ
  credit_history : ℚ
  property_area : String
deriving DecidableEq, Repr

/-- app.py lines 163-175: `input_df = pd.DataFrame([{...}])` — the single
row keyed by field name, built directly from the raw widget values with no
validation of its own. -/
def input_df (r : RawInputs) : List (String × FieldValue) :=
  [("Gender", FieldValue.str r.gender),
   ("Married", FieldValue.str r.married),
   ("Dependents", FieldValue.str r.dependents),
   ("Education", FieldValue.str r.education),
   ("Self_Employed", FieldValue.str r.self_employed),
   ("ApplicantIncome", FieldValue.int r.applicant_income),
   ("CoapplicantIncome", FieldValue.int r.coapplicant_income),
   ("LoanAmount", FieldValue.int r.loan_amount),
   ("Loan_Amount_Term", FieldValue.int r.loan_amount_term),
   ("Credit_History", FieldValue.rat r.credit_history),
   ("Property_Area", FieldValue.str r.property_area)]

/-- The fixed improvement suggestions of the warning box (app.py
lines 227-232), in display order. -/
def recommendations : List String :=
  ["Améliorer l\x27historique de crédit",
   "Augmenter le revenu du demandeur/co-demandeur",
   "Réduire le montant du prêt demandé"]

/-- app.py line 226: `if decision == "Not Approved" and prob < 0.5:` —
the recommendations are shown exactly under this conjunction, otherwise
nothing is shown (empty list). -/
def recommend (d : Decision) (prob : ℚ) : List String :=
  if d = Decision.notApproved ∧ prob < 1/2 then recommendations else []

/-- Claim C1: the decision function maps `p` to Approved exactly when
`p ≥ 0.5`, with `decision 0.5 = Approved`, `decision 0.499999 = Not
Approved`, `decision 1 = Approved`, `decision 0 = Not Approved`, and it is
monotonic. -/
theorem decision_threshold :
    (∀ p : ℚ, decision p = Decision.approved ↔ p ≥ 1/2) ∧
    decision (1/2) = Decision.approved ∧
    decision (499999/1000000) = Decision.notApproved ∧
    decision 1 = Decision.approved ∧
    decision 0 = Decision.notApproved ∧
    (∀ p1 p2 : ℚ, p1 ≤ p2 → decision p1 = Decision.approved →
      decision p2 = Decision.approved) := by
  refine ⟨?_, by norm_num [decision], by norm_num [decision],
    by norm_num [decision], by norm_num [decision], ?_⟩
  · intro p
    unfold decision
    split
    · exact iff_of_true rfl (by assumption)
    · exact iff_of_false (by simp) (by assumption)
  · intro p1 p2 hle h1
    unfold decision at h1 ⊢
    split at h1
    · split
      · rfl
      · exact absurd (le_trans (by assumption) hle) (by assumption)
    · exact absurd h1 (by simp)

/-- Witness for C1: the monotonicity clause applied at `p1 = 1/2`,
`p2 = 3/4`, using the threshold clause at `1/2`. -/
theorem decision_threshold_witness : decision (3/4) = Decision.approved :=
  decision_threshold.2.2.2.2.2 (1/2) (3/4) (by norm_num)
    decision_threshold.2.1

/-- Whether a cell value lies in the declared domain of the named field
(the constraint table of spec §3, which coincides with the option sets and
minimum bounds of the widgets at app.py lines 92-149). -/
def inDomain (name : String) (v : FieldValue) : Bool :=
  if name = "Gender" then
    match v with
    | FieldValue.str s => decide (s ∈ ["Male", "Female"])
    | _ => false
  else if name = "Married" then
    match v with
    | FieldValue.str s => decide (s ∈ ["Yes", "No"])
    | _ => false
  else if name = "Dependents" then
    match v with
    | FieldValue.str s => decide (s ∈ ["0", "1", "2", "3+"])
    | _ => false
  else if name = "Education" then
    match v with
    | FieldValue.str s => decide (s ∈ ["Graduate", "Not Graduate"])
    | _ => false
  else if name = "Self_Employed" then
    match v with
    | FieldValue.str s => decide (s ∈ ["Yes", "No"])
    | _ => false
  else if name = "ApplicantIncome" then
    match v with
    | FieldValue.int n => decide (0 ≤ n)
    | _ => false
  else if name = "CoapplicantIncome" then
    match v with
    | FieldValue.int n => decide (0 ≤ n)
    | _ => false
  else if name = "LoanAmount" then
    match v with
    | FieldValue.int n => decide (0 ≤ n)
    | _ => false
  else if name = "Loan_Amount_Term" then
    match v with
    | FieldValue.int n => decide (n ∈ ([360, 180, 480, 300, 240, 120, 84] : List ℤ))
    | _ => false
  else if name = "Credit_History" then
    match v with
    | FieldValue.rat q => decide (q = 1 ∨ q = 0)
    | _ => false
  else if name = "Property_Area" then
    match v with
    | FieldValue.str s => decide (s ∈ ["Urban", "Semiurban", "Rural"])
    | _ => false
  else false

/-- Every cell of a row is in its field's declared domain. -/
def rowInDomain (row : List (String × FieldValue)) : Bool :=
  row.all fun f => inDomain f.1 f.2

/-- Raw inputs are valid when every cell of the row they produce lies in
its declared domain. -/
def validRaw (r : RawInputs) : Bool :=
  rowInDomain (input_df r)

/-- Modelled from the spec: `buildRecord` as §4.2 describes it — the code
under `src/app.py` builds `input_df` with no check of its own, so the
defensive variant that fails with `ValidationError` on a negative numeric
field or an out-of-domain categorical exists only in the spec's words.
This definition is used to compare the spec's contract with the code's
`input_df`. -/
def buildRecord_spec (r : RawInputs) : Except String (List (String × FieldValue)) :=
  if validRaw r then Except.ok (input_df r) else Except.error "ValidationError"

/-- Raw inputs with an out-of-domain categorical (`gender = "Other"`) and
a negative numeric field (`applicant_income = -1`). -/
def badRaw : RawInputs :=
  { gender := "Other", married := "Yes", dependents := "0",
    education := "Graduate", self_employed := "No",
    applicant_income := -1, coapplicant_income := 0, loan_amount := 100,
    loan_amount_term := 360, credit_history := 1, property_area := "Urban" }

/-- Counterexample to claim C2: on raw inputs with `gender = "Other"` and
`applicant_income = -1`, the handler's record construction does not fail —
`input_df` produces the full row carrying the out-of-domain values — even
though the spec's `buildRecord` would reject these inputs as invalid. -/
theorem input_df_accepts_bad :
    input_df badRaw =
      [("Gender", FieldValue.str "Other"),
       ("Married", FieldValue.str "Yes"),
       ("Dependents", FieldValue.str "0"),
       ("Education", FieldValue.str "Graduate"),
       ("Self_Employed", FieldValue.str "No"),
       ("ApplicantIncome", FieldValue.int (-1)),
       ("CoapplicantIncome", FieldValue.int 0),
       ("LoanAmount", FieldValue.int 100),
       ("Loan_Amount_Term", FieldValue.int 360),
       ("Credit_History", FieldValue.rat 1),
       ("Property_Area", FieldValue.str "Urban")] ∧
    validRaw badRaw = false ∧
    buildRecord_spec badRaw = Except.error "ValidationError" := by
  refine ⟨rfl, by decide, ?_⟩
  unfold buildRecord_spec
  rw [show validRaw badRaw = false by decide]
  rfl

/-- Claim C2 (amended): record construction in the handler performs no
validation of its own — even on raw inputs that violate the declared
domains (and that the spec's defensive `buildRecord` rejects with
`ValidationError`), `input_df` still produces the full eleven-field row,
passing the offending values through unchanged. Domain constraints are
enforced only by the presentation-layer widgets. -/
theorem input_df_no_validation (r : RawInputs) (h : validRaw r = false) :
    buildRecord_spec r = Except.error "ValidationError" ∧
    (input_df r).map Prod.fst =
      ["Gender", "Married", "Dependents", "Education", "Self_Employed",
       "ApplicantIncome", "CoapplicantIncome", "LoanAmount",
       "Loan_Amount_Term", "Credit_History", "Property_Area"] ∧
    (input_df r).lookup "Gender" = some (FieldValue.str r.gender) ∧
    (input_df r).lookup "ApplicantIncome" =
      some (FieldValue.int r.applicant_income) := by
  refine ⟨?_, rfl, ?_, ?_⟩
  · unfold buildRecord_spec
    rw [h]
    rfl
  · rfl
  · rfl

/-- Witness for the amended C2 at the concrete bad inputs. -/
theorem input_df_no_validation_witness :
    buildRecord_spec badRaw = Except.error "ValidationError" ∧
    (input_df badRaw).map Prod.fst =
      ["Gender", "Married", "Dependents", "Education", "Self_Employed",
       "ApplicantIncome", "CoapplicantIncome", "LoanAmount",
       "Loan_Amount_Term", "Credit_History", "Property_Area"] ∧
    (input_df badRaw).lookup "Gender" = some (FieldValue.str badRaw.gender) ∧
    (input_df badRaw).lookup "ApplicantIncome" =
      some (FieldValue.int badRaw.applicant_income) :=
  input_df_no_validation badRaw (by decide)

/-- Counterexample to claim C3: at the pair (Not Approved, 0.7) the code's
recommendation guard (`decision == "Not Approved" and prob < 0.5`) yields
the empty list, although the claim requires a non-empty fixed list for
every pair whose decision is Not Approved. -/
theorem recommend_counterexample :
    recommend Decision.notApproved (7/10) = [] := by
  unfold recommend
  rw [if_neg]
  rintro ⟨-, hlt⟩
  norm_num at hlt

/-- Claim C3 (amended): the code's guard also requires `prob < 0.5`, so
the claimed equivalence holds for exactly the pairs the program produces,
namely those with `d = decision prob`: there the list is non-empty iff the
decision is Not Approved, it is the fixed ordered list when Not Approved,
and empty when Approved. -/
theorem recommend_program_pairs (prob : ℚ) (d : Decision)
    (h : d = decision prob) :
    (recommend d prob ≠ [] ↔ d = Decision.notApproved) ∧
    (d = Decision.notApproved → recommend d prob = recommendations) ∧
    (d = Decision.approved → recommend d prob = []) := by
  subst h
  unfold decision recommend
  by_cases hp : prob ≥ 1/2
  · rw [if_pos hp]
    refine ⟨?_, ?_, fun _ => ?_⟩
    · rw [if_neg]
      · simp
      · rintro ⟨hd, -⟩
        exact absurd hd (by simp)
    · intro hd
      exact absurd hd (by simp)
    · rw [if_neg]
      rintro ⟨hd, -⟩
      exact absurd hd (by simp)
  · rw [if_neg hp]
    have hlt : prob < 1/2 := lt_of_not_ge hp
    refine ⟨?_, fun _ => ?_, fun hd => ?_⟩
    · rw [if_pos ⟨rfl, hlt⟩]
      simp [recommendations]
    · rw [if_pos ⟨rfl, hlt⟩]
    · exact absurd hd (by simp)

/-- Witness for the amended C3 at `prob = 1/4`: the decision is Not
Approved and the fixed list is returned. -/
theorem recommend_program_pairs_witness :
    recommend (decision (1/4)) (1/4) = recommendations :=
  (recommend_program_pairs (1/4) (decision (1/4)) rfl).2.1
    (by norm_num [decision])

/-- Modelled from the spec: the serialized pipeline `loan_pipeline.joblib`
is an external artifact, not part of the repository.  Per spec §6 it
exposes a `predict_proba`-equivalent operation that accepts a single-row
record keyed by field name and returns a per-class probability vector with
the positive ("approved") class at index 1; per §4.1 the underlying
pipeline may raise during inference, modelled as `Except.error` carrying
the exception text. -/
structure Pipeline where
  predict_proba : List (String × FieldValue) → Except String (ℚ × ℚ)
  prob_vec : ∀ row p, predict_proba row = Except.ok p →
    0 ≤ p.1 ∧ 0 ≤ p.2 ∧ p.1 + p.2 = 1

/-- app.py line 179: `prob = model.predict_proba(input_df)[0][1]` — row 0
of the returned matrix, class index 1 (the approved class). -/
def score (m : Pipeline) (row : List (String × FieldValue)) : Except String ℚ :=
  (m.predict_proba row).map fun p => p.2

/-- The `st.cache_resource` storage backing `load_model`: `none` while the
function has never run in this process, `some r` once its return value `r`
(possibly Python `None`, for a missing artifact) has been cached. -/
structure CacheState where
  cached : Option (Option Pipeline)
deriving Inhabited

/-- The cache at process start: `load_model` has not run yet. -/
def emptyCache : CacheState := ⟨none⟩

/-- app.py lines 53-59: `load_model` under `@st.cache_resource`.  The
filesystem is `artifact : Option Pipeline` (`none` = no file at
`loan_pipeline.joblib`, so `joblib.load` raises `FileNotFoundError`,
which the function catches, reporting the error and returning `None`).
Returns (result, new cache, number of filesystem reads performed). -/
def load_model (artifact : Option Pipeline) (s : CacheState) :
    Option Pipeline × CacheState × ℕ :=
  match s.cached with
  | some r => (r, s, 0)
  | none => (artifact, ⟨some artifact⟩, 1)

/-- app.py line 235: `st.error(f"Erreur lors de la prédiction : {str(e)}")`. -/
def errorMessage (e : String) : String :=
  "Erreur lors de la prédiction : " ++ e

/-- The result rendered after a successful prediction: probability,
decision, and the recommendation texts shown (empty when none). -/
structure PredictionResult where
  probability : ℚ
  decision : Decision
  recs : List String

/-- What one press of the predict button produces: a rendered prediction,
an error box (the `except` branch), or nothing (button not pressed or
model missing). -/
inductive Outcome where
  | result (r : PredictionResult)
  | errorMsg (m : String)
  | noPrediction

/-- app.py lines 177-235: the `try` block — score the row, derive the
decision and recommendations; on any exception render the error message
instead (no partial result). -/
def predict_block (m : Pipeline) (raw : RawInputs) : Outcome :=
  match score m (input_df raw) with
  | Except.ok prob =>
      Outcome.result ⟨prob, decision prob, recommend (decision prob) prob⟩
  | Except.error e => Outcome.errorMsg (errorMessage e)

/-- The observable effect of one Streamlit rerun. -/
structure StepResult where
  outcome : Outcome
  cache : CacheState
  fileReads : ℕ
  scoringCalls : ℕ

/-- One interaction (script rerun): `model = load_model()` (line 63, via
the `st.cache_resource` cache), then the guarded block
`if predict_btn and model is not None:` (line 161).  `fileReads` counts
artifact reads, `scoringCalls` counts `predict_proba` invocations. -/
def interaction (artifact : Option Pipeline) (predictBtn : Bool)
    (raw : RawInputs) (s : CacheState) : StepResult :=
  match load_model artifact s with
  | (m, s1, reads) =>
    match m, predictBtn with
    | some pipe, true => ⟨predict_block pipe raw, s1, reads, 1⟩
    | some _, false => ⟨Outcome.noPrediction, s1, reads, 0⟩
    | none, _ => ⟨Outcome.noPrediction, s1, reads, 0⟩

/-- Claim C4: with the artifact absent, the first `load_model` call reads
the path once and yields the not-found condition (`None`, reported
non-fatally — the process goes on with scoring disabled); from the cached
state every further `load_model` returns the same failure without reading
the path, and every interaction short-circuits: no prediction, no
filesystem read, no scoring call. -/
theorem missing_artifact_cached (btn : Bool) (raw : RawInputs) :
    (load_model none emptyCache).1 = none ∧
    (load_model none emptyCache).2.2 = 1 ∧
    (load_model none (load_model none emptyCache).2.1).1 = none ∧
    (load_model none (load_model none emptyCache).2.1).2.2 = 0 ∧
    (interaction none btn raw (load_model none emptyCache).2.1).outcome =
      Outcome.noPrediction ∧
    (interaction none btn raw (load_model none emptyCache).2.1).fileReads = 0 ∧
    (interaction none btn raw (load_model none emptyCache).2.1).scoringCalls = 0 := by
  refine ⟨rfl, rfl, rfl, rfl, ?_, ?_, ?_⟩ <;> cases btn <;> rfl

/-- Claim C6: the prediction fails atomically.  If the pipeline raises on
a row, the interaction produces no `PredictionResult` at all (the outcome
is the error box), the cached model handle is unchanged, and a subsequent
attempt on inputs the pipeline accepts still produces a full result. -/
theorem prediction_atomic (pipe : Pipeline) (raw raw2 : RawInputs)
    (e : String) (p : ℚ × ℚ)
    (hfail : pipe.predict_proba (input_df raw) = Except.error e)
    (hok : pipe.predict_proba (input_df raw2) = Except.ok p) :
    (∀ res, (interaction (some pipe) true raw ⟨some (some pipe)⟩).outcome ≠
      Outcome.result res) ∧
    (interaction (some pipe) true raw ⟨some (some pipe)⟩).cache =
      ⟨some (some pipe)⟩ ∧
    (interaction (some pipe) true raw2
        (interaction (some pipe) true raw ⟨some (some pipe)⟩).cache).outcome =
      Outcome.result ⟨p.2, decision p.2, recommend (decision p.2) p.2⟩ := by
  have hblock : predict_block pipe raw = Outcome.errorMsg (errorMessage e) := by
    unfold predict_block score
    rw [hfail]
    rfl
  have hblock2 : predict_block pipe raw2 =
      Outcome.result ⟨p.2, decision p.2, recommend (decision p.2) p.2⟩ := by
    unfold predict_block score
    rw [hok]
    rfl
  refine ⟨?_, rfl, ?_⟩
  · intro res
    show predict_block pipe raw ≠ Outcome.result res
    rw [hblock]
    intro hcontra
    exact Outcome.noConfusion hcontra
  · show predict_block pipe raw2 = _
    exact hblock2

/-- A concrete pipeline for witnesses: raises on rows that carry the
out-of-domain value `Gender = "Other"`, returns the vector (1/2, 1/2)
otherwise. -/
def failPipe : Pipeline where
  predict_proba := fun row =>
    if ("Gender", FieldValue.str "Other") ∈ row then Except.error "boom"
    else Except.ok (1/2, 1/2)
  prob_vec := by
    intro row p h
    dsimp only at h
    split at h
    · exact Except.noConfusion h
    · injection h with h2
      rw [← h2]
      norm_num

/-- Raw inputs of the spec's end-to-end scenario 1 (all values inside the
widget domains). -/
def exampleRaw : RawInputs :=
  { gender := "Male", married := "Yes", dependents := "0",
    education := "Graduate", self_employed := "No",
    applicant_income := 5000, coapplicant_income := 0, loan_amount := 100,
    loan_amount_term := 360, credit_history := 1, property_area := "Urban" }

/-- Witness for C6 with the concrete `failPipe`, failing on `badRaw` and
succeeding on `exampleRaw`. -/
theorem prediction_atomic_witness :
    (∀ res, (interaction (some failPipe) true badRaw ⟨some (some failPipe)⟩).outcome ≠
      Outcome.result res) ∧
    (interaction (some failPipe) true badRaw ⟨some (some failPipe)⟩).cache =
      ⟨some (some failPipe)⟩ ∧
    (interaction (some failPipe) true exampleRaw
        (interaction (some failPipe) true badRaw ⟨some (some failPipe)⟩).cache).outcome =
      Outcome.result ⟨(1/2 : ℚ), decision (1/2), recommend (decision (1/2)) (1/2)⟩ :=
  prediction_atomic failPipe badRaw exampleRaw "boom" (1/2, 1/2) rfl rfl

/-- Counterexample to claim C5: when the pipeline raises with exception
text `"boom"`, the user-facing message rendered by the `except` handler is
the fixed prefix followed verbatim by that internal exception text
(`str(e)` is interpolated into the message), so the message does include
the internal exception text. -/
theorem scoring_error_leaks_text :
    (interaction (some failPipe) true badRaw ⟨some (some failPipe)⟩).outcome =
      Outcome.errorMsg ("Erreur lors de la prédiction : " ++ "boom") := rfl

/-- Claim C5 (amended): a pipeline failure is surfaced as the single-line
message `"Erreur lors de la prédiction : "` followed by the underlying
exception's text `str(e)` — the exception text is included (no stack
trace is, but the message is not free of internal exception text). -/
theorem scoring_error_message (pipe : Pipeline) (raw : RawInputs) (e : String)
    (h : pipe.predict_proba (input_df raw) = Except.error e) :
    predict_block pipe raw =
      Outcome.errorMsg ("Erreur lors de la prédiction : " ++ e) := by
  unfold predict_block score
  rw [h]
  rfl

/-- Witness for the amended C5 with the concrete failing pipeline. -/
theorem scoring_error_message_witness :
    predict_block failPipe badRaw =
      Outcome.errorMsg ("Erreur lors de la prédiction : " ++ "boom") :=
  scoring_error_message failPipe badRaw "boom" rfl

/-- Claim C7: whenever `score` returns a value, that value lies in the
closed interval [0,1] and is exactly the probability mass the pipeline's
vector assigns to the positive (index-1, "approved") class. -/
theorem score_unit_interval (m : Pipeline) (row : List (String × FieldValue))
    (q : ℚ) (h : score m row = Except.ok q) :
    0 ≤ q ∧ q ≤ 1 ∧ ∃ p0, m.predict_proba row = Except.ok (p0, q) := by
  unfold score at h
  cases hp : m.predict_proba row with
  | error e =>
      rw [hp] at h
      exact Except.noConfusion h
  | ok p =>
      rw [hp] at h
      simp only [Except.map] at h
      injection h with h2
      obtain ⟨h1, hq, hsum⟩ := m.prob_vec row p hp
      refine ⟨?_, ?_, p.1, ?_⟩
      · rw [← h2]; exact hq
      · rw [← h2]; linarith
      · rw [← h2]

/-- A constant pipeline for the C7 witness: always returns the vector
(1/3, 2/3). -/
def constPipe : Pipeline where
  predict_proba := fun _ => Except.ok (1/3, 2/3)
  prob_vec := by
    intro row p h
    injection h with h2
    rw [← h2]
    norm_num

/-- Witness for C7 at the concrete constant pipeline. -/
theorem score_unit_interval_witness :
    0 ≤ (2/3 : ℚ) ∧ (2/3 : ℚ) ≤ 1 ∧
    ∃ p0, constPipe.predict_proba (input_df exampleRaw) = Except.ok (p0, 2/3) :=
  score_unit_interval constPipe (input_df exampleRaw) (2/3) rfl

/-- The widget constraints of app.py lines 92-149: each `st.selectbox`
restricts its variable to its option list, and each `st.number_input` has
`min_value=0`. -/
def widgetConstrained (r : RawInputs) : Prop :=
  r.gender ∈ (["Male", "Female"] : List String) ∧
  r.married ∈ (["Yes", "No"] : List String) ∧
  r.dependents ∈ (["0", "1", "2", "3+"] : List String) ∧
  r.education ∈ (["Graduate", "Not Graduate"] : List String) ∧
  r.self_employed ∈ (["Yes", "No"] : List String) ∧
  0 ≤ r.applicant_income ∧ 0 ≤ r.coapplicant_income ∧ 0 ≤ r.loan_amount ∧
  r.loan_amount_term ∈ ([360, 180, 480, 300, 240, 120, 84] : List ℤ) ∧
  (r.credit_history = 1 ∨ r.credit_history = 0) ∧
  r.property_area ∈ (["Urban", "Semiurban", "Rural"] : List String)

/-- Claim C8: every record the handler submits for scoring is fully
populated — given widget-constrained raw values (the only values the
program can hold when the button is pressed), the constructed row carries
exactly the eleven fields of the data model, in each of which the value
lies in that field's declared domain. -/
theorem record_fully_populated (r : RawInputs) (h : widgetConstrained r) :
    (input_df r).map Prod.fst =
      ["Gender", "Married", "Dependents", "Education", "Self_Employed",
       "ApplicantIncome", "CoapplicantIncome", "LoanAmount",
       "Loan_Amount_Term", "Credit_History", "Property_Area"] ∧
    rowInDomain (input_df r) = true := by
  refine ⟨rfl, ?_⟩
  simp only [widgetConstrained] at h
  simp at h
  simp [rowInDomain, input_df, inDomain]
  tauto

/-- Witness for C8 at the scenario-1 raw inputs. -/
theorem record_fully_populated_witness :
    (input_df exampleRaw).map Prod.fst =
      ["Gender", "Married", "Dependents", "Education", "Self_Employed",
       "ApplicantIncome", "CoapplicantIncome", "LoanAmount",
       "Loan_Amount_Term", "Credit_History", "Property_Area"] ∧
    rowInDomain (input_df exampleRaw) = true :=
  record_fully_populated exampleRaw (by unfold widgetConstrained; decide)

/-- Claim C9: scoring is deterministic — repeating the same interaction
from the state the first one left (same artifact, same button, same raw
inputs) yields the identical outcome (hence the same probability and
decision) and leaves the cache unchanged; there is no hidden state,
randomness or retry. -/
theorem scoring_deterministic (artifact : Option Pipeline) (btn : Bool)
    (raw : RawInputs) (s : CacheState) :
    (interaction artifact btn raw
        (interaction artifact btn raw s).cache).outcome =
      (interaction artifact btn raw s).outcome ∧
    (interaction artifact btn raw
        (interaction artifact btn raw s).cache).cache =
      (interaction artifact btn raw s).cache := by
  obtain ⟨c⟩ := s
  cases c with
  | none =>
      cases artifact with
      | none => cases btn <;> exact ⟨rfl, rfl⟩
      | some pipe => cases btn <;> exact ⟨rfl, rfl⟩
  | some m =>
      cases m with
      | none => cases btn <;> exact ⟨rfl, rfl⟩
      | some pipe => cases btn <;> exact ⟨rfl, rfl⟩

/-- Claim C10: when loading failed (the handle is `None`), pressing the
predict button performs no scoring call at all — `predict_proba` is never
invoked on an absent model handle. -/
theorem no_score_without_model (artifact : Option Pipeline) (s : CacheState)
    (btn : Bool) (raw : RawInputs)
    (h : (load_model artifact s).1 = none) :
    (interaction artifact btn raw s).scoringCalls = 0 ∧
    (interaction artifact btn raw s).outcome = Outcome.noPrediction := by
  rcases hl : load_model artifact s with ⟨m, s1, reads⟩
  have hm : m = none := by rw [hl] at h; exact h
  subst hm
  unfold interaction
  rw [hl]
  exact ⟨rfl, rfl⟩

/-- Witness for C10: missing artifact, fresh cache, button pressed. -/
theorem no_score_without_model_witness :
    (interaction none true exampleRaw emptyCache).scoringCalls = 0 ∧
    (interaction none true exampleRaw emptyCache).outcome =
      Outcome.noPrediction :=
  no_score_without_model none emptyCache true exampleRaw rfl

end LoanApproval
